import Mathlib

/- Shallow embedding of the CTF (contrast transfer function) engine of
   `abtem/transfer.py`: the polar aberration phase-error expansion, the
   envelope functions, polar/Cartesian coefficient conversion, the parameter
   store with aliases, and the grid-evaluation cache.  Machine floats are
   modelled as exact reals; arrays are modelled elementwise (every array
   operation in the source is elementwise or an outer-product broadcast). -/

namespace AbTem

/-- The 25 canonical polar aberration coefficient names (`polar_symbols`). -/
inductive PolarSymbol where
  | C10 | C12 | phi12
  | C21 | phi21 | C23 | phi23
  | C30 | C32 | phi32 | C34 | phi34
  | C41 | phi41 | C43 | phi43 | C45 | phi45
  | C50 | C52 | phi52 | C54 | phi54 | C56 | phi56
deriving DecidableEq, Repr

/-- The parameter store: one real value per canonical coefficient, every
coefficient defaulting to 0 (`dict(zip(polar_symbols, [0.] * 25))`). -/
structure Params where
  C10 : ℝ := 0
  C12 : ℝ := 0
  phi12 : ℝ := 0
  C21 : ℝ := 0
  phi21 : ℝ := 0
  C23 : ℝ := 0
  phi23 : ℝ := 0
  C30 : ℝ := 0
  C32 : ℝ := 0
  phi32 : ℝ := 0
  C34 : ℝ := 0
  phi34 : ℝ := 0
  C41 : ℝ := 0
  phi41 : ℝ := 0
  C43 : ℝ := 0
  phi43 : ℝ := 0
  C45 : ℝ := 0
  phi45 : ℝ := 0
  C50 : ℝ := 0
  C52 : ℝ := 0
  phi52 : ℝ := 0
  C54 : ℝ := 0
  phi54 : ℝ := 0
  C56 : ℝ := 0
  phi56 : ℝ := 0

/-- The all-zero parameter store (the initial `self._parameters`). -/
def Params.zero : Params := {}

/-- Read the store entry for a canonical coefficient. -/
def Params.get (p : Params) : PolarSymbol → ℝ
  | .C10 => p.C10
  | .C12 => p.C12
  | .phi12 => p.phi12
  | .C21 => p.C21
  | .phi21 => p.phi21
  | .C23 => p.C23
  | .phi23 => p.phi23
  | .C30 => p.C30
  | .C32 => p.C32
  | .phi32 => p.phi32
  | .C34 => p.C34
  | .phi34 => p.phi34
  | .C41 => p.C41
  | .phi41 => p.phi41
  | .C43 => p.C43
  | .phi43 => p.phi43
  | .C45 => p.C45
  | .phi45 => p.phi45
  | .C50 => p.C50
  | .C52 => p.C52
  | .phi52 => p.phi52
  | .C54 => p.C54
  | .phi54 => p.phi54
  | .C56 => p.C56
  | .phi56 => p.phi56

/-- Write the store entry for a canonical coefficient
(`self._parameters[symbol] = value`). -/
def Params.set (p : Params) : PolarSymbol → ℝ → Params
  | .C10, v => { p with C10 := v }
  | .C12, v => { p with C12 := v }
  | .phi12, v => { p with phi12 := v }
  | .C21, v => { p with C21 := v }
  | .phi21, v => { p with phi21 := v }
  | .C23, v => { p with C23 := v }
  | .phi23, v => { p with phi23 := v }
  | .C30, v => { p with C30 := v }
  | .C32, v => { p with C32 := v }
  | .phi32, v => { p with phi32 := v }
  | .C34, v => { p with C34 := v }
  | .phi34, v => { p with phi34 := v }
  | .C41, v => { p with C41 := v }
  | .phi41, v => { p with phi41 := v }
  | .C43, v => { p with C43 := v }
  | .phi43, v => { p with phi43 := v }
  | .C45, v => { p with C45 := v }
  | .phi45, v => { p with phi45 := v }
  | .C50, v => { p with C50 := v }
  | .C52, v => { p with C52 := v }
  | .phi52, v => { p with phi52 := v }
  | .C54, v => { p with C54 := v }
  | .phi54, v => { p with phi54 := v }
  | .C56, v => { p with C56 := v }
  | .phi56, v => { p with phi56 := v }

/-- Membership test of a string key in the 25-key store
(`symbol in self._parameters.keys()`), returning the matched symbol. -/
def parseSymbol : String → Option PolarSymbol
  | "C10" => some .C10
  | "C12" => some .C12
  | "phi12" => some .phi12
  | "C21" => some .C21
  | "phi21" => some .phi21
  | "C23" => some .C23
  | "phi23" => some .phi23
  | "C30" => some .C30
  | "C32" => some .C32
  | "phi32" => some .phi32
  | "C34" => some .C34
  | "phi34" => some .phi34
  | "C41" => some .C41
  | "phi41" => some .phi41
  | "C43" => some .C43
  | "phi43" => some .phi43
  | "C45" => some .C45
  | "phi45" => some .phi45
  | "C50" => some .C50
  | "C52" => some .C52
  | "phi52" => some .phi52
  | "C54" => some .C54
  | "phi54" => some .phi54
  | "C56" => some .C56
  | "phi56" => some .phi56
  | _ => none

/-- The alias table `polar_aliases`, as a lookup from alias name to its
canonical target symbol. -/
def polar_aliases : String → Option PolarSymbol
  | "defocus" => some .C10
  | "astigmatism" => some .C12
  | "astigmatism_angle" => some .phi12
  | "coma" => some .C21
  | "coma_angle" => some .phi21
  | "Cs" => some .C30
  | "C5" => some .C50
  | _ => none

/-- Function `calculate_symmetric_chi`: the first three rotationally
symmetric terms of the phase-error expansion. -/
noncomputable def calculate_symmetric_chi (alpha wavelength : ℝ) (p : Params) : ℝ :=
  let alpha2 := alpha ^ 2
  2 * Real.pi / wavelength * (1 / 2 * alpha2 * p.C10 +
                              1 / 4 * alpha2 ^ 2 * p.C30 +
                              1 / 6 * alpha2 ^ 3 * p.C50)

/-- Function `calculate_polar_chi`: the polar expansion of the phase error up
to 5th order, starting from a zero array; each order group is accumulated
(`array += ...`) only under its any-coefficient-nonzero guard, which is
modelled here by adding the group term or 0 depending on the guard.  The
guard of the 4th-order group mirrors the source exactly: it lists `phi41`
twice and does not list `phi45`. -/
noncomputable def calculate_polar_chi (alpha phi wavelength : ℝ) (p : Params) : ℝ :=
  2 * Real.pi / wavelength *
    (0 +
     (if p.C10 ≠ 0 ∨ p.C12 ≠ 0 ∨ p.phi12 ≠ 0 then
        1 / 2 * alpha ^ 2 *
          (p.C10 + p.C12 * Real.cos (2 * (phi - p.phi12)))
      else 0) +
     (if p.C21 ≠ 0 ∨ p.phi21 ≠ 0 ∨ p.C23 ≠ 0 ∨ p.phi23 ≠ 0 then
        1 / 3 * alpha ^ 2 * alpha *
          (p.C21 * Real.cos (phi - p.phi21) +
           p.C23 * Real.cos (3 * (phi - p.phi23)))
      else 0) +
     (if p.C30 ≠ 0 ∨ p.C32 ≠ 0 ∨ p.phi32 ≠ 0 ∨ p.C34 ≠ 0 ∨ p.phi34 ≠ 0 then
        1 / 4 * (alpha ^ 2) ^ 2 *
          (p.C30 + p.C32 * Real.cos (2 * (phi - p.phi32)) +
           p.C34 * Real.cos (4 * (phi - p.phi34)))
      else 0) +
     (if p.C41 ≠ 0 ∨ p.phi41 ≠ 0 ∨ p.C43 ≠ 0 ∨ p.phi43 ≠ 0 ∨ p.C45 ≠ 0 ∨ p.phi41 ≠ 0 then
        1 / 5 * (alpha ^ 2) ^ 2 * alpha *
          (p.C41 * Real.cos (phi - p.phi41) +
           p.C43 * Real.cos (3 * (phi - p.phi43)) +
           p.C45 * Real.cos (5 * (phi - p.phi45)))
      else 0) +
     (if p.C50 ≠ 0 ∨ p.C52 ≠ 0 ∨ p.phi52 ≠ 0 ∨ p.C54 ≠ 0 ∨ p.phi54 ≠ 0 ∨ p.C56 ≠ 0 ∨ p.phi56 ≠ 0 then
        1 / 6 * (alpha ^ 2) ^ 3 *
          (p.C50 + p.C52 * Real.cos (2 * (phi - p.phi52)) +
           p.C54 * Real.cos (4 * (phi - p.phi54)) +
           p.C56 * Real.cos (6 * (phi - p.phi56)))
      else 0))

/-- Modelled from the spec: the naive variant of `polarChi` that always
computes all five order groups, `2 * pi / wavelength` times the sum over
orders n = 1..5 of `1 / (n + 1) * alpha ^ (n + 1)` times the azimuthal
cosine sum of that order; the zero-skip optimization is dropped. -/
noncomputable def calculate_polar_chi_spec (alpha phi wavelength : ℝ) (p : Params) : ℝ :=
  2 * Real.pi / wavelength *
    (1 / 2 * alpha ^ 2 *
       (p.C10 + p.C12 * Real.cos (2 * (phi - p.phi12))) +
     1 / 3 * alpha ^ 3 *
       (p.C21 * Real.cos (phi - p.phi21) +
        p.C23 * Real.cos (3 * (phi - p.phi23))) +
     1 / 4 * alpha ^ 4 *
       (p.C30 + p.C32 * Real.cos (2 * (phi - p.phi32)) +
        p.C34 * Real.cos (4 * (phi - p.phi34))) +
     1 / 5 * alpha ^ 5 *
       (p.C41 * Real.cos (phi - p.phi41) +
        p.C43 * Real.cos (3 * (phi - p.phi43)) +
        p.C45 * Real.cos (5 * (phi - p.phi45))) +
     1 / 6 * alpha ^ 6 *
       (p.C50 + p.C52 * Real.cos (2 * (phi - p.phi52)) +
        p.C54 * Real.cos (4 * (phi - p.phi54)) +
        p.C56 * Real.cos (6 * (phi - p.phi56))))

/-- Modelled from the spec: `complex_exponential` (imported from
`abtem.cpu_kernels`, not under src).  The spec states
`aberrations(...) = exp(-i * polarChi(...))` while the source computes
`complex_exponential(-polarChi(...))`, so `complex_exponential x = exp(i*x)`. -/
noncomputable def complex_exponential (x : ℝ) : ℂ := Complex.exp (x * Complex.I)

/-- Function `calculate_polar_aberrations`. -/
noncomputable def calculate_polar_aberrations (alpha phi wavelength : ℝ) (p : Params) : ℂ :=
  complex_exponential (-calculate_polar_chi alpha phi wavelength p)

/-- Function `calculate_symmetric_aberrations`. -/
noncomputable def calculate_symmetric_aberrations (alpha wavelength : ℝ) (p : Params) : ℂ :=
  complex_exponential (-calculate_symmetric_chi alpha wavelength p)

/-- Function `calculate_aperture`, elementwise.  The semiangle cutoff is
modelled as an extended real so that the default `np.inf` cutoff is
representable; the tapered (`rolloff > 0`) branch, which the source only
reaches with finite cutoffs, reads the finite value through `EReal.toReal`.
The two nested conditionals reproduce the source masking order: the taper is
overwritten by 0 above the cutoff, and everything at or below
`cutoff - rolloff * cutoff` is reset to 1. -/
noncomputable def calculate_aperture (alpha : ℝ) (cutoff : EReal) (rolloff : ℝ) : ℝ :=
  if 0 < rolloff then
    let c := cutoff.toReal
    let r := rolloff * c
    let taper := 1 / 2 * (1 + Real.cos (Real.pi * (alpha - c + r) / r))
    if c - r < alpha then (if c < alpha then 0 else taper) else 1
  else if (alpha : EReal) < cutoff then 1 else 0

/-- Function `calculate_temporal_envelope`. -/
noncomputable def calculate_temporal_envelope (alpha wavelength focal_spread : ℝ) : ℝ :=
  Real.exp (-(1 / 2 * Real.pi / wavelength * focal_spread * alpha ^ 2) ^ 2)

/-- Function `calculate_gaussian_envelope`. -/
noncomputable def calculate_gaussian_envelope (alpha wavelength gaussian_spread : ℝ) : ℝ :=
  Real.exp (-(1 / 2) * gaussian_spread ^ 2 * alpha ^ 2 / wavelength ^ 2)

/-- Local variable `dchi_dk` of `calculate_spatial_envelope`. -/
noncomputable def dchi_dk (alpha phi wavelength : ℝ) (p : Params) : ℝ :=
  2 * Real.pi / wavelength *
    ((p.C12 * Real.cos (2 * (phi - p.phi12)) + p.C10) * alpha +
     (p.C23 * Real.cos (3 * (phi - p.phi23)) +
      p.C21 * Real.cos (1 * (phi - p.phi21))) * alpha ^ 2 +
     (p.C34 * Real.cos (4 * (phi - p.phi34)) +
      p.C32 * Real.cos (2 * (phi - p.phi32)) + p.C30) * alpha ^ 3 +
     (p.C45 * Real.cos (5 * (phi - p.phi45)) +
      p.C43 * Real.cos (3 * (phi - p.phi43)) +
      p.C41 * Real.cos (1 * (phi - p.phi41))) * alpha ^ 4 +
     (p.C56 * Real.cos (6 * (phi - p.phi56)) +
      p.C54 * Real.cos (4 * (phi - p.phi54)) +
      p.C52 * Real.cos (2 * (phi - p.phi52)) + p.C50) * alpha ^ 5)

/-- Local variable `dchi_dphi` of `calculate_spatial_envelope`. -/
noncomputable def dchi_dphi (alpha phi wavelength : ℝ) (p : Params) : ℝ :=
  -2 * Real.pi / wavelength *
    (1 / 2 * (2 * p.C12 * Real.sin (2 * (phi - p.phi12))) * alpha +
     1 / 3 * (3 * p.C23 * Real.sin (3 * (phi - p.phi23)) +
              1 * p.C21 * Real.sin (1 * (phi - p.phi21))) * alpha ^ 2 +
     1 / 4 * (4 * p.C34 * Real.sin (4 * (phi - p.phi34)) +
              2 * p.C32 * Real.sin (2 * (phi - p.phi32))) * alpha ^ 3 +
     1 / 5 * (5 * p.C45 * Real.sin (5 * (phi - p.phi45)) +
              3 * p.C43 * Real.sin (3 * (phi - p.phi43)) +
              1 * p.C41 * Real.sin (1 * (phi - p.phi41))) * alpha ^ 4 +
     1 / 6 * (6 * p.C56 * Real.sin (6 * (phi - p.phi56)) +
              4 * p.C54 * Real.sin (4 * (phi - p.phi54)) +
              2 * p.C52 * Real.sin (2 * (phi - p.phi52))) * alpha ^ 5)

/-- Function `calculate_spatial_envelope`. -/
noncomputable def calculate_spatial_envelope (alpha phi wavelength angular_spread : ℝ)
    (p : Params) : ℝ :=
  Real.exp (-Real.sign angular_spread * (angular_spread / 2) ^ 2 *
    (dchi_dk alpha phi wavelength p ^ 2 + dchi_dphi alpha phi wavelength p ^ 2))

/-- Function `np.arctan2` as used by the source: `arctan2 y x` is the argument
of the complex number `x + y * I`. -/
noncomputable def arctan2 (y x : ℝ) : ℝ := Complex.arg (x + y * Complex.I)

/-- Polar input of `polar2cartesian` / output of `cartesian2polar`.  The
source reads these keys from a mapping whose missing keys default to 0
(`defaultdict`); the structure makes every field explicit with default 0. -/
structure PolarCoeffs where
  C10 : ℝ := 0
  C12 : ℝ := 0
  phi12 : ℝ := 0
  C21 : ℝ := 0
  phi21 : ℝ := 0
  C23 : ℝ := 0
  phi23 : ℝ := 0
  C30 : ℝ := 0
  C32 : ℝ := 0
  phi32 : ℝ := 0
  C34 : ℝ := 0
  phi34 : ℝ := 0

/-- Cartesian output of `polar2cartesian` / input of `cartesian2polar`. -/
structure CartesianCoeffs where
  C10 : ℝ := 0
  C12a : ℝ := 0
  C12b : ℝ := 0
  C21a : ℝ := 0
  C21b : ℝ := 0
  C23a : ℝ := 0
  C23b : ℝ := 0
  C30 : ℝ := 0
  C32a : ℝ := 0
  C32b : ℝ := 0
  C34a : ℝ := 0
  C34b : ℝ := 0

/-- Function `polar2cartesian`; `K` is the source's local
`K = np.sqrt(3 + np.sqrt(8.))`. -/
noncomputable def polar2cartesian (polar : PolarCoeffs) : CartesianCoeffs :=
  let K := Real.sqrt (3 + Real.sqrt 8)
  { C10 := polar.C10
    C12a := -polar.C12 * Real.cos (2 * polar.phi12)
    C12b := polar.C12 * Real.sin (2 * polar.phi12)
    C21a := polar.C21 * Real.sin polar.phi21
    C21b := polar.C21 * Real.cos polar.phi21
    C23a := -polar.C23 * Real.sin (3 * polar.phi23)
    C23b := polar.C23 * Real.cos (3 * polar.phi23)
    C30 := polar.C30
    C32a := -polar.C32 * Real.cos (2 * polar.phi32)
    C32b := polar.C32 * Real.cos (Real.pi / 2 - 2 * polar.phi32)
    C34a := polar.C34 * Real.cos (-4 * polar.phi34)
    C34b := 1 / 4 * (1 + K ^ 2) ^ 2 / (K ^ 3 - K) * polar.C34 *
      Real.cos (4 * Real.arctan (1 / K) - 4 * polar.phi34) }

/-- Function `cartesian2polar`. -/
noncomputable def cartesian2polar (c : CartesianCoeffs) : PolarCoeffs :=
  { C10 := c.C10
    C12 := -Real.sqrt (c.C12a ^ 2 + c.C12b ^ 2)
    phi12 := -arctan2 c.C12b c.C12a / 2
    C21 := Real.sqrt (c.C21a ^ 2 + c.C21b ^ 2)
    phi21 := arctan2 c.C21a c.C21b
    C23 := Real.sqrt (c.C23a ^ 2 + c.C23b ^ 2)
    phi23 := -arctan2 c.C23a c.C23b / 3
    C30 := c.C30
    C32 := -Real.sqrt (c.C32a ^ 2 + c.C32b ^ 2)
    phi32 := -arctan2 c.C32b c.C32a / 2
    C34 := Real.sqrt (c.C34a ^ 2 + c.C34b ^ 2)
    phi34 := arctan2 c.C34b c.C34a / 4 }

/-- External grid collaborator: `ident` models the object identity used as
the cache key, `defined` the `check_is_defined` validity flag, and `kx`, `ky`
the spatial-frequency axes returned by `spatial_frequencies()`. -/
structure Grid where
  ident : ℕ
  defined : Bool
  kx : List ℝ
  ky : List ℝ

/-- State of one `CTF` engine instance: the five optical settings (the
semiangle cutoff as an extended real so the default `np.inf` is
representable), the external accelerator modelled as an optional wavelength
(`none` when the energy is undefined), the parameter store, and the
capacity-1 grid-evaluation cache keyed by grid identity. -/
structure CTFState where
  semiangle_cutoff : EReal
  rolloff : ℝ
  focal_spread : ℝ
  angular_spread : ℝ
  gaussian_spread : ℝ
  wavelength? : Option ℝ
  params : Params
  cache : Option (ℕ × List (List ℂ))

namespace CTF

/-- Method `CTF.set_parameters`: iterates over the given (name, value)
entries in order, writing each recognized entry into the parameter store
(negating the value for the `defocus` alias, resolving the other aliases to
their canonical symbol) and stopping with the `ValueError` message at the
first unrecognized name, with all earlier writes kept.  It only writes the
parameter dict: it does not notify the `changed` event, so the cache field
is untouched. -/
def set_parameters (s : CTFState) : List (String × ℝ) → CTFState × Option String
  | [] => (s, none)
  | (symbol, value) :: rest =>
    match parseSymbol symbol with
    | some t => set_parameters { s with params := s.params.set t value } rest
    | none =>
      if symbol = "defocus" then
        set_parameters { s with params := s.params.set .C10 (-value) } rest
      else
        match polar_aliases symbol with
        | some t => set_parameters { s with params := s.params.set t value } rest
        | none => (s, some (symbol ++ " not a recognized parameter"))

/-- Setter generated by `parametrization_property` for a canonical
coefficient, or for a non-defocus alias resolved to its canonical target:
writes the store entry and notifies the `changed` event.  Modelled from the
spec: the notification machinery (`Event`, `cache_clear_callback` from
`abtem.bases`, not under src) delivers every notification to the single
observer registered at construction, which clears the grid-evaluation cache
unconditionally, ignoring the `change` flag. -/
def set_coefficient (s : CTFState) (t : PolarSymbol) (v : ℝ) : CTFState :=
  { s with params := s.params.set t v, cache := none }

/-- Property setter `defocus`: writes the negated value into `C10` and
notifies `changed` (spec-modelled unconditional cache clear, as in
`set_coefficient`). -/
def set_defocus (s : CTFState) (v : ℝ) : CTFState :=
  { s with params := s.params.set .C10 (-v), cache := none }

/-- Property setter `semiangle_cutoff`, a `watched_property` of `changed`
(spec-modelled unconditional cache clear). -/
def set_semiangle_cutoff (s : CTFState) (v : EReal) : CTFState :=
  { s with semiangle_cutoff := v, cache := none }

/-- Property setter `rolloff`, a `watched_property` of `changed`. -/
def set_rolloff (s : CTFState) (v : ℝ) : CTFState :=
  { s with rolloff := v, cache := none }

/-- Property setter `focal_spread`, a `watched_property` of `changed`. -/
def set_focal_spread (s : CTFState) (v : ℝ) : CTFState :=
  { s with focal_spread := v, cache := none }

/-- Property setter `angular_spread`, a `watched_property` of `changed`. -/
def set_angular_spread (s : CTFState) (v : ℝ) : CTFState :=
  { s with angular_spread := v, cache := none }

/-- Property setter `gaussian_spread`, a `watched_property` of `changed`. -/
def set_gaussian_spread (s : CTFState) (v : ℝ) : CTFState :=
  { s with gaussian_spread := v, cache := none }

/-- Constructor `CTF.__init__`: the optical settings are stored, the
parameter store starts all-zero, the cache empty, and the given parameter
mapping is applied through `set_parameters`. -/
def init (semiangle_cutoff : EReal)
    (rolloff focal_spread angular_spread gaussian_spread : ℝ)
    (wavelength? : Option ℝ) (parameters : List (String × ℝ)) :
    CTFState × Option String :=
  set_parameters
    { semiangle_cutoff, rolloff, focal_spread, angular_spread, gaussian_spread,
      wavelength?, params := Params.zero, cache := none } parameters

/-- Method `CTF.evaluate`, elementwise: the aberration phase factor,
multiplied in order by the aperture (only when the cutoff is finite), the
temporal envelope (only when `focal_spread > 0`), the spatial envelope (only
when `angular_spread > 0`) and the Gaussian envelope (only when
`gaussian_spread > 0`).  The wavelength argument is the value the external
accelerator supplies. -/
noncomputable def evaluate (s : CTFState) (wavelength alpha phi : ℝ) : ℂ :=
  let array := calculate_polar_aberrations alpha phi wavelength s.params
  let array := if s.semiangle_cutoff < (⊤ : EReal) then
      array * (calculate_aperture alpha s.semiangle_cutoff s.rolloff : ℂ)
    else array
  let array := if 0 < s.focal_spread then
      array * (calculate_temporal_envelope alpha wavelength s.focal_spread : ℂ)
    else array
  let array := if 0 < s.angular_spread then
      array * (calculate_spatial_envelope alpha phi wavelength s.angular_spread s.params : ℂ)
    else array
  let array := if 0 < s.gaussian_spread then
      array * (calculate_gaussian_envelope alpha wavelength s.gaussian_spread : ℂ)
    else array
  array

/-- Body of `CTF.evaluate_on_grid`: `alpha_x = kx * wavelength` indexes the
rows and `alpha_y = ky * wavelength` the columns, `alpha` is the outer root
of the sum of squares and `phi = arctan2(alpha_x, alpha_y)`, and `evaluate`
is applied elementwise. -/
noncomputable def evaluate_grid_array (s : CTFState) (wavelength : ℝ) (g : Grid) :
    List (List ℂ) :=
  (g.kx.map (· * wavelength)).map (fun ax =>
    (g.ky.map (· * wavelength)).map (fun ay =>
      evaluate s wavelength (Real.sqrt (ax ^ 2 + ay ^ 2)) (arctan2 ax ay)))

/-- Cache-miss path of `evaluate_on_grid`: the grid and accelerator validity
checks, then the evaluation, caching the array under the grid identity
(capacity 1: any previous entry is evicted). -/
noncomputable def evaluate_on_grid_compute (s : CTFState) (g : Grid) :
    Except String (List (List ℂ) × CTFState × Bool) :=
  if g.defined then
    match s.wavelength? with
    | some wavelength =>
      let arr := evaluate_grid_array s wavelength g
      .ok (arr, { s with cache := some (g.ident, arr) }, true)
    | none => .error "energy is not defined"
  else .error "grid is not defined"

/-- Method `CTF.evaluate_on_grid`, wrapped by `cached_method('cache')`.
Modelled from the spec: the `Cache`/`cached_method` machinery (from
`abtem.bases`, not under src) keeps a capacity-1 cache keyed by grid
identity; on a hit the method body is skipped and the cached array is
returned unchanged.  The returned flag reports whether the body recomputed,
the recompute observable the spec says invalidation is verifiable by. -/
noncomputable def evaluate_on_grid (s : CTFState) (g : Grid) :
    Except String (List (List ℂ) × CTFState × Bool) :=
  match s.cache with
  | some (key, arr) =>
    if key = g.ident then .ok (arr, s, false) else evaluate_on_grid_compute s g
  | none => evaluate_on_grid_compute s g

end CTF

/-- Concrete grid used as evaluation input: defined, identity 0, empty
frequency axes (so the evaluated array is the empty array). -/
def grid0 : Grid := { ident := 0, defined := true, kx := [], ky := [] }

/-- Concrete engine state with all optical settings at their defaults,
wavelength available, all 25 coefficients zero and an empty cache. -/
def ctf0 : CTFState :=
  { semiangle_cutoff := ⊤, rolloff := 0, focal_spread := 0, angular_spread := 0,
    gaussian_spread := 0, wavelength? := some 1, params := Params.zero, cache := none }

/-- The state `ctf0` after a successful `evaluate_on_grid` on `grid0`: the
cache holds the evaluated (empty) array under grid identity 0. -/
def ctf1 : CTFState := { ctf0 with cache := some (0, []) }

/-- Concrete parameter store with a single nonzero coefficient
(`C12 = 1`, twofold astigmatism), used to separate the spatial-envelope
gradient expressions. -/
def pC6 : Params := { C12 := 1 }

/-- Name resolution performed by `set_parameters` for one key: a canonical
coefficient name resolves to itself, otherwise a known alias (including
`defocus`) resolves to its canonical target; `none` means the key is
unrecognized and the call raises. -/
def resolved_symbol (symbol : String) : Option PolarSymbol :=
  match parseSymbol symbol with
  | some t => some t
  | none => polar_aliases symbol

/-- Auxiliary: the zero-skip guards of `calculate_polar_chi` never change the
value, because a skipped group has every magnitude coefficient equal to zero,
so the skipped group term is zero anyway. -/
lemma ite_guard_drop {b : Prop} [Decidable b] {t : ℝ} (h : ¬b → t = 0) :
    (if b then t else 0) = t := by
  split_ifs with hb
  · rfl
  · exact (h hb).symm

lemma polar_chi_eq_spec (alpha phi wavelength : ℝ) (p : Params) :
    calculate_polar_chi alpha phi wavelength p =
      calculate_polar_chi_spec alpha phi wavelength p := by
  rw [calculate_polar_chi, calculate_polar_chi_spec, ite_guard_drop, ite_guard_drop,
    ite_guard_drop, ite_guard_drop, ite_guard_drop]
  · ring
  · intro h
    push_neg at h
    obtain ⟨h1, h2, _, h4, _, h6, _⟩ := h
    rw [h1, h2, h4, h6]
    ring
  · intro h
    push_neg at h
    obtain ⟨h1, _, h3, _, h5, _⟩ := h
    rw [h1, h3, h5]
    ring
  · intro h
    push_neg at h
    obtain ⟨h1, h2, _, h4, _⟩ := h
    rw [h1, h2, h4]
    ring
  · intro h
    push_neg at h
    obtain ⟨h1, _, h3, _⟩ := h
    rw [h1, h3]
    ring
  · intro h
    push_neg at h
    obtain ⟨h1, h2, _⟩ := h
    rw [h1, h2]
    ring

/-- C7: the group-skipping implementation of `polarChi` agrees with the naive
version that always computes all five order groups, for every alpha, phi,
nonzero wavelength and full parameter mapping; the zero-skip optimization
never changes the result. -/
theorem polar_chi_zero_skip_eq_naive (alpha phi wavelength : ℝ) (p : Params)
    (hw : wavelength ≠ 0) :
    calculate_polar_chi alpha phi wavelength p =
      calculate_polar_chi_spec alpha phi wavelength p :=
  polar_chi_eq_spec alpha phi wavelength p

/-- Witness for C7 at a concrete input. -/
theorem polar_chi_zero_skip_eq_naive_witness :
    (1 : ℝ) ≠ 0 ∧
      calculate_polar_chi 1 0 1 Params.zero = calculate_polar_chi_spec 1 0 1 Params.zero :=
  ⟨by norm_num, polar_chi_zero_skip_eq_naive 1 0 1 Params.zero (by norm_num)⟩

/-- C8: with `rolloff = 0` the aperture is a hard edge, exactly 1 where
`alpha < cutoff` and exactly 0 where `alpha ≥ cutoff`; with the infinite
default cutoff it is identically 1. -/
theorem aperture_hard_edge (alpha c : ℝ) :
    (alpha < c → calculate_aperture alpha (c : EReal) 0 = 1) ∧
    (c ≤ alpha → calculate_aperture alpha (c : EReal) 0 = 0) ∧
    calculate_aperture alpha (⊤ : EReal) 0 = 1 := by
  refine ⟨fun h => ?_, fun h => ?_, ?_⟩ <;> rw [calculate_aperture] <;>
    rw [if_neg (lt_irrefl (0 : ℝ))]
  · rw [if_pos (EReal.coe_lt_coe_iff.mpr h)]
  · rw [if_neg ((EReal.coe_lt_coe_iff (x := alpha) (y := c)).not.mpr (not_lt.mpr h))]
  · rw [if_pos (EReal.coe_lt_top alpha)]

/-- Witness for C8 at concrete inputs. -/
theorem aperture_hard_edge_witness :
    ((0 : ℝ) < 1 ∧ calculate_aperture 0 ((1 : ℝ) : EReal) 0 = 1) ∧
    ((1 : ℝ) ≤ 2 ∧ calculate_aperture 2 ((1 : ℝ) : EReal) 0 = 0) ∧
    calculate_aperture 5 (⊤ : EReal) 0 = 1 :=
  ⟨⟨by norm_num, (aperture_hard_edge 0 1).1 (by norm_num)⟩,
   ⟨by norm_num, (aperture_hard_edge 2 1).2.1 (by norm_num)⟩,
   (aperture_hard_edge 5 0).2.2⟩

/-- C9: on a parameter mapping whose only (possibly) nonzero coefficients are
the rotationally symmetric `C10`, `C30`, `C50`, the full polar expansion
agrees elementwise with the dedicated symmetric expansion, for every alpha,
phi and nonzero wavelength. -/
theorem polar_chi_eq_symmetric_chi (alpha phi wavelength c10 c30 c50 : ℝ)
    (hw : wavelength ≠ 0) :
    calculate_polar_chi alpha phi wavelength { C10 := c10, C30 := c30, C50 := c50 } =
      calculate_symmetric_chi alpha wavelength { C10 := c10, C30 := c30, C50 := c50 } := by
  rw [polar_chi_eq_spec, calculate_polar_chi_spec, calculate_symmetric_chi]
  dsimp only
  ring

/-- Witness for C9 at a concrete input. -/
theorem polar_chi_eq_symmetric_chi_witness :
    (1 : ℝ) ≠ 0 ∧
      calculate_polar_chi 1 0 1 { C10 := 1, C30 := 2, C50 := 3 } =
        calculate_symmetric_chi 1 1 { C10 := 1, C30 := 2, C50 := 3 } :=
  ⟨by norm_num, polar_chi_eq_symmetric_chi 1 0 1 1 2 3 (by norm_num)⟩

/-- Auxiliary: the polar chi expansion vanishes on the all-zero parameter
store. -/
lemma polar_chi_zero_params (alpha phi wavelength : ℝ) :
    calculate_polar_chi alpha phi wavelength Params.zero = 0 := by
  rw [polar_chi_eq_spec, calculate_polar_chi_spec]
  simp [Params.zero]

/-- C5: with all 25 coefficients zero and all optical settings at their
defaults (infinite cutoff, zero rolloff and spreads), `evaluate` returns
exactly 1 + 0i at every element, for every alpha, phi and wavelength. -/
theorem evaluate_zero_params_eq_one (s : CTFState) (wavelength alpha phi : ℝ)
    (hp : s.params = Params.zero) (hc : s.semiangle_cutoff = ⊤) (hr : s.rolloff = 0)
    (hf : s.focal_spread = 0) (ha : s.angular_spread = 0) (hg : s.gaussian_spread = 0) :
    CTF.evaluate s wavelength alpha phi = 1 := by
  rw [CTF.evaluate]
  simp only [hp, hc, hf, ha, hg, lt_self_iff_false, if_false]
  rw [calculate_polar_aberrations, polar_chi_zero_params, complex_exponential]
  simp

/-- Witness for C5 at a concrete state and input. -/
theorem evaluate_zero_params_eq_one_witness :
    (ctf0.params = Params.zero ∧ ctf0.semiangle_cutoff = ⊤ ∧ ctf0.rolloff = 0 ∧
      ctf0.focal_spread = 0 ∧ ctf0.angular_spread = 0 ∧ ctf0.gaussian_spread = 0) ∧
    CTF.evaluate ctf0 1 2 3 = 1 :=
  ⟨⟨rfl, rfl, rfl, rfl, rfl, rfl⟩,
   evaluate_zero_params_eq_one ctf0 1 2 3 rfl rfl rfl rfl rfl rfl⟩

/-- Auxiliary: a successful run of the cache-miss path returns the computed
array, stores it in the cache under the grid identity, and reports a
recompute. -/
lemma evaluate_on_grid_compute_ok {s : CTFState} {g : Grid} {a : List (List ℂ)}
    {s' : CTFState} {c : Bool}
    (h : CTF.evaluate_on_grid_compute s g = .ok (a, s', c)) :
    s' = { s with cache := some (g.ident, a) } ∧ c = true := by
  rw [CTF.evaluate_on_grid_compute] at h
  split_ifs at h with hd
  · cases hw : s.wavelength? with
    | none => rw [hw] at h; exact absurd h (by simp)
    | some wl =>
      rw [hw] at h
      simp only [Except.ok.injEq, Prod.mk.injEq] at h
      obtain ⟨ha, hs', hc⟩ := h
      subst ha
      exact ⟨hs'.symm, hc.symm⟩

/-- C3: a second `evaluate_on_grid` call with the same grid and no
intervening mutation is a cache hit: it returns the identical cached array,
leaves the state unchanged, and does not recompute. -/
theorem evaluate_on_grid_idempotent (s : CTFState) (g : Grid) (a : List (List ℂ))
    (s' : CTFState) (c : Bool)
    (h : CTF.evaluate_on_grid s g = .ok (a, s', c)) :
    CTF.evaluate_on_grid s' g = .ok (a, s', false) := by
  rw [CTF.evaluate_on_grid] at h
  rcases hcache : s.cache with _ | ⟨key, arr⟩
  · simp only [hcache] at h
    obtain ⟨hs', -⟩ := evaluate_on_grid_compute_ok h
    subst hs'
    rw [CTF.evaluate_on_grid]
    try simp
  · simp only [hcache] at h
    by_cases hk : key = g.ident
    · rw [if_pos hk] at h
      simp only [Except.ok.injEq, Prod.mk.injEq] at h
      obtain ⟨ha, hs', hc⟩ := h
      subst ha; subst hs'
      rw [CTF.evaluate_on_grid]
      simp only [hcache]
      rw [if_pos hk]
    · rw [if_neg hk] at h
      obtain ⟨hs', -⟩ := evaluate_on_grid_compute_ok h
      subst hs'
      rw [CTF.evaluate_on_grid]
      try simp

/-- Witness for C3: two calls on the concrete fresh state; the first
computes and caches, the second returns the identical array without
recomputation. -/
theorem evaluate_on_grid_idempotent_witness :
    CTF.evaluate_on_grid ctf0 grid0 = .ok ([], ctf1, true) ∧
    CTF.evaluate_on_grid ctf1 grid0 = .ok ([], ctf1, false) :=
  ⟨rfl, evaluate_on_grid_idempotent ctf0 grid0 [] ctf1 true rfl⟩

/-- Auxiliary: `set_parameters` writes only the parameter store; the cache
field of the state is whatever it was before the call, whether or not the
call succeeds. -/
lemma set_parameters_cache_eq (l : List (String × ℝ)) (s : CTFState) :
    (CTF.set_parameters s l).1.cache = s.cache := by
  induction l generalizing s with
  | nil => rfl
  | cons e rest ih =>
    obtain ⟨symbol, value⟩ := e
    rw [CTF.set_parameters]
    cases hp : parseSymbol symbol with
    | some t => simp only [hp]; exact ih _
    | none =>
      simp only [hp]
      by_cases hd : symbol = "defocus"
      · rw [if_pos hd]; exact ih _
      · rw [if_neg hd]
        cases ha : polar_aliases symbol with
        | some t => simp only [ha]; exact ih _
        | none => simp only [ha]

/-- C1 (counterexample): a parameter mutation made through the batch
`set_parameters` call between two `evaluate_on_grid` calls on the same grid
does not clear the cached grid evaluation.  Starting from the fresh state
`ctf0`, the first call computes and caches; `set_parameters` then genuinely
mutates `C10` through the `defocus` alias, yet the cache entry survives and
the second call returns the stale cached array without recomputing. -/
theorem set_parameters_does_not_invalidate_cache :
    CTF.evaluate_on_grid ctf0 grid0 = .ok ([], ctf1, true) ∧
    (CTF.set_parameters ctf1 [("defocus", 50)]).1.params.C10 = -50 ∧
    (CTF.set_parameters ctf1 [("defocus", 50)]).1.cache = some (0, []) ∧
    CTF.evaluate_on_grid (CTF.set_parameters ctf1 [("defocus", 50)]).1 grid0 =
      .ok ([], (CTF.set_parameters ctf1 [("defocus", 50)]).1, false) :=
  ⟨rfl, rfl, rfl, rfl⟩

/-- C1 (amended): every mutation made through a per-coefficient or per-alias
property setter or an optical-setting setter clears the cached grid
evaluation — including a set-to-the-same-value mutation, since the observer
ignores the change flag — so the next `evaluate_on_grid` call recomputes;
the batch `set_parameters` call, however, does not notify the change event
and leaves the cache exactly as it was. -/
theorem mutation_invalidates_cache (s : CTFState) (t : PolarSymbol) (v : ℝ)
    (ec : EReal) (l : List (String × ℝ)) (g : Grid) (wl : ℝ)
    (hg : g.defined = true) (hw : s.wavelength? = some wl) :
    (CTF.set_coefficient s t v).cache = none ∧
    (CTF.set_defocus s v).cache = none ∧
    (CTF.set_semiangle_cutoff s ec).cache = none ∧
    (CTF.set_rolloff s v).cache = none ∧
    (CTF.set_focal_spread s v).cache = none ∧
    (CTF.set_angular_spread s v).cache = none ∧
    (CTF.set_gaussian_spread s v).cache = none ∧
    (CTF.evaluate_on_grid (CTF.set_coefficient s t v) g).map (fun r => r.2.2) =
      .ok true ∧
    (CTF.set_parameters s l).1.cache = s.cache := by
  refine ⟨rfl, rfl, rfl, rfl, rfl, rfl, rfl, ?_, set_parameters_cache_eq l s⟩
  rw [CTF.evaluate_on_grid]
  simp only [CTF.set_coefficient]
  rw [CTF.evaluate_on_grid_compute]
  simp only [hg, if_true, hw]
  rfl

/-- Witness for C1 (amended) at a concrete state, setter and grid. -/
theorem mutation_invalidates_cache_witness :
    (grid0.defined = true ∧ ctf1.wavelength? = some 1) ∧
    ((CTF.set_coefficient ctf1 .C10 5).cache = none ∧
     (CTF.set_defocus ctf1 5).cache = none ∧
     (CTF.set_semiangle_cutoff ctf1 ⊤).cache = none ∧
     (CTF.set_rolloff ctf1 5).cache = none ∧
     (CTF.set_focal_spread ctf1 5).cache = none ∧
     (CTF.set_angular_spread ctf1 5).cache = none ∧
     (CTF.set_gaussian_spread ctf1 5).cache = none ∧
     (CTF.evaluate_on_grid (CTF.set_coefficient ctf1 .C10 5) grid0).map
        (fun r => r.2.2) = .ok true ∧
     (CTF.set_parameters ctf1 [("Cs", 7)]).1.cache = ctf1.cache) :=
  ⟨⟨rfl, rfl⟩,
   mutation_invalidates_cache ctf1 .C10 5 ⊤ [("Cs", 7)] grid0 1 rfl rfl⟩

/-- Auxiliary: writing one coefficient leaves every other store entry
unchanged. -/
lemma Params.get_set_ne (p : Params) (t t' : PolarSymbol) (v : ℝ) (h : t' ≠ t) :
    (p.set t v).get t' = p.get t' := by
  cases t <;> cases t' <;> first | exact absurd rfl h | rfl

/-- Auxiliary: a `set_parameters` step on a recognized key writes some value
to the resolved target coefficient and recurses on the remaining entries. -/
lemma set_parameters_cons_recognized {sy : String} (s : CTFState) (v0 : ℝ)
    (h : resolved_symbol sy ≠ none) :
    ∃ (t0 : PolarSymbol) (w : ℝ), resolved_symbol sy = some t0 ∧
      ∀ rest : List (String × ℝ),
        CTF.set_parameters s ((sy, v0) :: rest) =
          CTF.set_parameters { s with params := s.params.set t0 w } rest := by
  cases hp : parseSymbol sy with
  | some t0 =>
    refine ⟨t0, v0, by simp only [resolved_symbol, hp], fun rest => ?_⟩
    rw [CTF.set_parameters]
    simp only [hp]
  | none =>
    by_cases hd : sy = "defocus"
    · subst hd
      refine ⟨.C10, -v0, rfl, fun rest => ?_⟩
      rw [CTF.set_parameters]
      simp only [hp, if_true]
    · cases ha : polar_aliases sy with
      | none => exact absurd (by simp only [resolved_symbol, hp]; exact ha) h
      | some t0 =>
        refine ⟨t0, v0, by simp only [resolved_symbol, hp]; exact ha, fun rest => ?_⟩
        rw [CTF.set_parameters]
        simp only [hp]
        rw [if_neg hd]
        simp only [ha]

/-- Auxiliary: processing a recognized prefix succeeds, applies exactly the
prefix writes, and then continues on the tail from the updated state;
entries whose resolved target is never written by the prefix keep their
original value. -/
lemma set_parameters_prefix_result (s : CTFState) (pre tail : List (String × ℝ))
    (hpre : ∀ e ∈ pre, resolved_symbol e.1 ≠ none) :
    CTF.set_parameters s (pre ++ tail) =
      CTF.set_parameters (CTF.set_parameters s pre).1 tail ∧
    (CTF.set_parameters s pre).2 = none ∧
    ∀ t : PolarSymbol, (∀ e ∈ pre, resolved_symbol e.1 ≠ some t) →
      (CTF.set_parameters s pre).1.params.get t = s.params.get t := by
  induction pre generalizing s with
  | nil => exact ⟨rfl, rfl, fun t _ => rfl⟩
  | cons e rest ih =>
    obtain ⟨sy, v0⟩ := e
    have h0 : resolved_symbol sy ≠ none := hpre _ (List.mem_cons_self _ _)
    obtain ⟨t0, w, hres0, hstep⟩ := set_parameters_cons_recognized s v0 h0
    have hrest : ∀ e ∈ rest, resolved_symbol e.1 ≠ none :=
      fun e he => hpre e (List.mem_cons_of_mem _ he)
    obtain ⟨ihsplit, ihnone, ihpres⟩ :=
      ih { s with params := s.params.set t0 w } hrest
    refine ⟨?_, ?_, ?_⟩
    · rw [List.cons_append, hstep, hstep, ihsplit]
    · rw [hstep, ihnone]
    · intro t ht
      have hne : t ≠ t0 := by
        intro hEq
        exact ht (sy, v0) (List.mem_cons_self _ _) (by rw [hres0, hEq])
      rw [hstep, ihpres t (fun e he => ht e (List.mem_cons_of_mem _ he))]
      exact Params.get_set_ne _ _ _ _ hne

/-- Auxiliary: `set_parameters` on a list headed by an unrecognized key
raises the unrecognized-parameter error immediately, leaving the state as it
was. -/
lemma set_parameters_unrecognized_head (x : CTFState) (symbol : String) (value : ℝ)
    (post : List (String × ℝ)) (hsym : parseSymbol symbol = none)
    (hali : polar_aliases symbol = none) :
    CTF.set_parameters x ((symbol, value) :: post) =
      (x, some (symbol ++ " not a recognized parameter")) := by
  have hd : symbol ≠ "defocus" := by
    intro e
    rw [e] at hali
    exact absurd hali (by decide)
  rw [CTF.set_parameters]
  simp only [hsym]
  rw [if_neg hd]
  simp only [hali]

/-- C4: a `set_parameters` call whose entries contain a key that is neither
one of the 25 canonical coefficient names nor a known alias fails with the
unrecognized-parameter error; the offending key resolves to no store entry at
all, and every store entry not targeted by the recognized entries before the
offending one — in particular anything the offending key could denote — is
left unchanged by the call. -/
theorem set_parameters_unrecognized_error (s : CTFState)
    (pre post : List (String × ℝ)) (symbol : String) (value : ℝ)
    (hsym : parseSymbol symbol = none) (hali : polar_aliases symbol = none)
    (hpre : ∀ e ∈ pre, resolved_symbol e.1 ≠ none) :
    resolved_symbol symbol = none ∧
    (CTF.set_parameters s (pre ++ (symbol, value) :: post)).2 =
      some (symbol ++ " not a recognized parameter") ∧
    ∀ t : PolarSymbol, (∀ e ∈ pre, resolved_symbol e.1 ≠ some t) →
      (CTF.set_parameters s (pre ++ (symbol, value) :: post)).1.params.get t =
        s.params.get t := by
  obtain ⟨hsplit, -, hpres⟩ :=
    set_parameters_prefix_result s pre ((symbol, value) :: post) hpre
  have hhead :=
    set_parameters_unrecognized_head (CTF.set_parameters s pre).1 symbol value post
      hsym hali
  refine ⟨by simp only [resolved_symbol, hsym]; exact hali, ?_, ?_⟩
  · rw [hsplit, hhead]
  · intro t ht
    rw [hsplit, hhead]
    exact hpres t ht

/-- Witness for C4 at a concrete state and parameter list. -/
theorem set_parameters_unrecognized_error_witness :
    (parseSymbol "unknown_xyz" = none ∧ polar_aliases "unknown_xyz" = none ∧
      (∀ e ∈ [(("Cs" : String), (2 : ℝ))], resolved_symbol e.1 ≠ none)) ∧
    (resolved_symbol "unknown_xyz" = none ∧
     (CTF.set_parameters ctf0 ([("Cs", 2)] ++ ("unknown_xyz", 1) :: [("C12", 3)])).2 =
        some ("unknown_xyz" ++ " not a recognized parameter") ∧
     ∀ t : PolarSymbol, (∀ e ∈ [(("Cs" : String), (2 : ℝ))], resolved_symbol e.1 ≠ some t) →
       (CTF.set_parameters ctf0 ([("Cs", 2)] ++ ("unknown_xyz", 1) :: [("C12", 3)])).1.params.get t =
         ctf0.params.get t) :=
  ⟨⟨rfl, rfl, fun e he => by rw [List.mem_singleton] at he; subst he; decide⟩,
   set_parameters_unrecognized_error ctf0 [("Cs", 2)] [("C12", 3)] "unknown_xyz" 1 rfl rfl
     (fun e he => by rw [List.mem_singleton] at he; subst he; decide)⟩

/-- C10: when the first unrecognized key sits at position k of the entry
sequence, every recognized entry before it has already been applied to the
parameter store (including the defocus sign flip, which is part of the
prefix application) when the error is raised, and no entry from position k
onwards is applied: the final state equals the state produced by running
`set_parameters` on the prefix alone, and that prefix run raises no error. -/
theorem set_parameters_not_atomic (s : CTFState)
    (pre post : List (String × ℝ)) (symbol : String) (value : ℝ)
    (hsym : parseSymbol symbol = none) (hali : polar_aliases symbol = none)
    (hpre : ∀ e ∈ pre, resolved_symbol e.1 ≠ none) :
    (CTF.set_parameters s (pre ++ (symbol, value) :: post)).1 =
      (CTF.set_parameters s pre).1 ∧
    (CTF.set_parameters s pre).2 = none := by
  obtain ⟨hsplit, hnone, -⟩ :=
    set_parameters_prefix_result s pre ((symbol, value) :: post) hpre
  have hhead :=
    set_parameters_unrecognized_head (CTF.set_parameters s pre).1 symbol value post
      hsym hali
  exact ⟨by rw [hsplit, hhead], hnone⟩

/-- Witness for C10: a defocus entry before the unrecognized key is applied
(with the sign flip), the entry after it is not. -/
theorem set_parameters_not_atomic_witness :
    (parseSymbol "bogus" = none ∧ polar_aliases "bogus" = none ∧
      (∀ e ∈ [(("defocus" : String), (50 : ℝ))], resolved_symbol e.1 ≠ none)) ∧
    ((CTF.set_parameters ctf0 ([("defocus", 50)] ++ ("bogus", 1) :: [("C12", 3)])).1 =
        (CTF.set_parameters ctf0 [("defocus", 50)]).1 ∧
     (CTF.set_parameters ctf0 [("defocus", 50)]).2 = none) ∧
    (CTF.set_parameters ctf0 [("defocus", 50)]).1.params.C10 = -50 ∧
    (CTF.set_parameters ctf0 ([("defocus", 50)] ++ ("bogus", 1) :: [("C12", 3)])).1.params.C12 = 0 :=
  ⟨⟨rfl, rfl, fun e he => by rw [List.mem_singleton] at he; subst he; decide⟩,
   set_parameters_not_atomic ctf0 [("defocus", 50)] [("C12", 3)] "bogus" 1 rfl rfl
     (fun e he => by rw [List.mem_singleton] at he; subst he; decide),
   rfl, rfl⟩

/-- Auxiliary: the square root of a sum of two squares that algebraically
collapses to a single square is the absolute value. -/
lemma sqrt_sq_add_sq_eq_abs (a x y : ℝ) (h : x ^ 2 + y ^ 2 = a ^ 2) :
    Real.sqrt (x ^ 2 + y ^ 2) = |a| := by
  rw [h, Real.sqrt_sq_eq_abs]

/-- Auxiliary: the constant `K = sqrt(3 + sqrt 8)` of `polar2cartesian`
equals `1 + sqrt 2`. -/
lemma K_val : Real.sqrt (3 + Real.sqrt 8) = 1 + Real.sqrt 2 := by
  have h2 : Real.sqrt 2 ^ 2 = 2 := Real.sq_sqrt (by norm_num)
  have h8 : Real.sqrt 8 = 2 * Real.sqrt 2 := by
    rw [show (8 : ℝ) = 2 ^ 2 * 2 by norm_num,
      Real.sqrt_mul (by positivity) 2, Real.sqrt_sq (by norm_num)]
  rw [h8, show (3 : ℝ) + 2 * Real.sqrt 2 = (1 + Real.sqrt 2) ^ 2 by linear_combination -h2]
  exact Real.sqrt_sq (by positivity)

/-- Auxiliary: the scalar factor in front of the `C34b` conversion equals 1. -/
lemma C34b_coeff_eq_one :
    1 / 4 * (1 + Real.sqrt (3 + Real.sqrt 8) ^ 2) ^ 2 /
      (Real.sqrt (3 + Real.sqrt 8) ^ 3 - Real.sqrt (3 + Real.sqrt 8)) = 1 := by
  rw [K_val]
  have h2 : Real.sqrt 2 ^ 2 = 2 := Real.sq_sqrt (by norm_num)
  have h3 : Real.sqrt 2 ^ 3 = 2 * Real.sqrt 2 := by
    rw [pow_succ, h2]
  have hden : (1 + Real.sqrt 2) ^ 3 - (1 + Real.sqrt 2) = 6 + 4 * Real.sqrt 2 := by
    linear_combination 3 * h2 + h3
  have hnum : 1 / 4 * (1 + (1 + Real.sqrt 2) ^ 2) ^ 2 = 6 + 4 * Real.sqrt 2 := by
    linear_combination (1 / 4 * Real.sqrt 2 ^ 2 + Real.sqrt 2 + 5 / 2) * h2
  rw [hden, hnum]
  exact div_self (by positivity)

/-- Auxiliary: `arctan (1 / K) = pi / 8`. -/
lemma arctan_inv_K : Real.arctan (1 / Real.sqrt (3 + Real.sqrt 8)) = Real.pi / 8 := by
  rw [K_val]
  have h2 : Real.sqrt 2 ^ 2 = 2 := Real.sq_sqrt (by norm_num)
  have hinv : 1 / (1 + Real.sqrt 2) = Real.sqrt 2 - 1 := by
    rw [div_eq_iff (by positivity : (1 : ℝ) + Real.sqrt 2 ≠ 0)]
    linear_combination -h2
  have hs2 : Real.sqrt (2 + Real.sqrt 2) ^ 2 = 2 + Real.sqrt 2 :=
    Real.sq_sqrt (by positivity)
  have hsub : Real.sqrt (2 - Real.sqrt 2) =
      (Real.sqrt 2 - 1) * Real.sqrt (2 + Real.sqrt 2) := by
    have h21 : (1 : ℝ) ≤ Real.sqrt 2 := by
      nlinarith [Real.sqrt_nonneg 2, h2]
    rw [show (2 : ℝ) - Real.sqrt 2 =
        ((Real.sqrt 2 - 1) * Real.sqrt (2 + Real.sqrt 2)) ^ 2 by
      linear_combination (-Real.sqrt 2) * h2 + (-(Real.sqrt 2 - 1) ^ 2) * hs2]
    exact Real.sqrt_sq (by nlinarith [Real.sqrt_nonneg (2 + Real.sqrt 2)])
  have htan : Real.tan (Real.pi / 8) = Real.sqrt 2 - 1 := by
    rw [Real.tan_eq_sin_div_cos, Real.sin_pi_div_eight, Real.cos_pi_div_eight, hsub]
    have hne : Real.sqrt (2 + Real.sqrt 2) ≠ 0 := by positivity
    field_simp
  rw [hinv, ← htan, Real.arctan_tan]
  · linarith [Real.pi_pos]
  · linarith [Real.pi_pos]

/-- C2: the round trip `cartesian2polar (polar2cartesian p)` recovers the
original magnitudes of `C12`, `C21`, `C23`, `C30`, `C32` and `C34` exactly
(hence within any floating tolerance); the phase angles are not compared. -/
theorem roundtrip_recovers_magnitudes (p : PolarCoeffs) :
    |(cartesian2polar (polar2cartesian p)).C12| = |p.C12| ∧
    |(cartesian2polar (polar2cartesian p)).C21| = |p.C21| ∧
    |(cartesian2polar (polar2cartesian p)).C23| = |p.C23| ∧
    (cartesian2polar (polar2cartesian p)).C30 = p.C30 ∧
    |(cartesian2polar (polar2cartesian p)).C32| = |p.C32| ∧
    |(cartesian2polar (polar2cartesian p)).C34| = |p.C34| := by
  simp only [cartesian2polar, polar2cartesian]
  refine ⟨?_, ?_, ?_, trivial, ?_, ?_⟩
  · rw [abs_neg, abs_of_nonneg (Real.sqrt_nonneg _),
      sqrt_sq_add_sq_eq_abs p.C12 _ _
        (by linear_combination p.C12 ^ 2 * Real.cos_sq_add_sin_sq (2 * p.phi12))]
  · rw [abs_of_nonneg (Real.sqrt_nonneg _),
      sqrt_sq_add_sq_eq_abs p.C21 _ _
        (by linear_combination p.C21 ^ 2 * Real.sin_sq_add_cos_sq p.phi21)]
  · rw [abs_of_nonneg (Real.sqrt_nonneg _),
      sqrt_sq_add_sq_eq_abs p.C23 _ _
        (by linear_combination p.C23 ^ 2 * Real.sin_sq_add_cos_sq (3 * p.phi23))]
  · rw [abs_neg, abs_of_nonneg (Real.sqrt_nonneg _), Real.cos_pi_div_two_sub,
      sqrt_sq_add_sq_eq_abs p.C32 _ _
        (by linear_combination p.C32 ^ 2 * Real.cos_sq_add_sin_sq (2 * p.phi32))]
  · rw [arctan_inv_K, show 4 * (Real.pi / 8) - 4 * p.phi34 =
        Real.pi / 2 - 4 * p.phi34 by ring, Real.cos_pi_div_two_sub, C34b_coeff_eq_one,
      one_mul, show (-4 : ℝ) * p.phi34 = -(4 * p.phi34) by ring, Real.cos_neg,
      abs_of_nonneg (Real.sqrt_nonneg _),
      sqrt_sq_add_sq_eq_abs p.C34 _ _
        (by linear_combination p.C34 ^ 2 * Real.cos_sq_add_sin_sq (4 * p.phi34))]

/-- Auxiliary: the radial derivative of the (ungated) polar chi expansion is
the source's `dchi_dk` expression. -/
lemma hasDerivAt_chi_alpha (phi wavelength : ℝ) (p : Params) (x : ℝ) :
    HasDerivAt (fun a => calculate_polar_chi_spec a phi wavelength p)
      (dchi_dk x phi wavelength p) x := by
  have h1 := ((hasDerivAt_pow 2 x).const_mul (1 / 2 : ℝ)).mul_const
    (p.C10 + p.C12 * Real.cos (2 * (phi - p.phi12)))
  have h2 := ((hasDerivAt_pow 3 x).const_mul (1 / 3 : ℝ)).mul_const
    (p.C21 * Real.cos (phi - p.phi21) + p.C23 * Real.cos (3 * (phi - p.phi23)))
  have h3 := ((hasDerivAt_pow 4 x).const_mul (1 / 4 : ℝ)).mul_const
    (p.C30 + p.C32 * Real.cos (2 * (phi - p.phi32)) +
     p.C34 * Real.cos (4 * (phi - p.phi34)))
  have h4 := ((hasDerivAt_pow 5 x).const_mul (1 / 5 : ℝ)).mul_const
    (p.C41 * Real.cos (phi - p.phi41) + p.C43 * Real.cos (3 * (phi - p.phi43)) +
     p.C45 * Real.cos (5 * (phi - p.phi45)))
  have h5 := ((hasDerivAt_pow 6 x).const_mul (1 / 6 : ℝ)).mul_const
    (p.C50 + p.C52 * Real.cos (2 * (phi - p.phi52)) +
     p.C54 * Real.cos (4 * (phi - p.phi54)) +
     p.C56 * Real.cos (6 * (phi - p.phi56)))
  have H := ((((h1.add h2).add h3).add h4).add h5).const_mul (2 * Real.pi / wavelength)
  have hD : 2 * Real.pi / wavelength *
      (1 / 2 * (↑(2 : ℕ) * x ^ (2 - 1)) *
         (p.C10 + p.C12 * Real.cos (2 * (phi - p.phi12))) +
       1 / 3 * (↑(3 : ℕ) * x ^ (3 - 1)) *
         (p.C21 * Real.cos (phi - p.phi21) + p.C23 * Real.cos (3 * (phi - p.phi23))) +
       1 / 4 * (↑(4 : ℕ) * x ^ (4 - 1)) *
         (p.C30 + p.C32 * Real.cos (2 * (phi - p.phi32)) +
          p.C34 * Real.cos (4 * (phi - p.phi34))) +
       1 / 5 * (↑(5 : ℕ) * x ^ (5 - 1)) *
         (p.C41 * Real.cos (phi - p.phi41) + p.C43 * Real.cos (3 * (phi - p.phi43)) +
          p.C45 * Real.cos (5 * (phi - p.phi45))) +
       1 / 6 * (↑(6 : ℕ) * x ^ (6 - 1)) *
         (p.C50 + p.C52 * Real.cos (2 * (phi - p.phi52)) +
          p.C54 * Real.cos (4 * (phi - p.phi54)) +
          p.C56 * Real.cos (6 * (phi - p.phi56)))) =
      dchi_dk x phi wavelength p := by
    rw [dchi_dk]
    push_cast
    ring
  exact hD ▸ H

/-- Auxiliary: the azimuthal derivative of the (ungated) polar chi expansion
is `alpha` times the source's `dchi_dphi` expression. -/
lemma hasDerivAt_chi_phi (alpha wavelength : ℝ) (p : Params) (x : ℝ) :
    HasDerivAt (fun q => calculate_polar_chi_spec alpha q wavelength p)
      (alpha * dchi_dphi alpha x wavelength p) x := by
  have i12 := ((((hasDerivAt_id x).sub_const p.phi12).const_mul (2 : ℝ)).cos).const_mul p.C12
  have i21 := (((hasDerivAt_id x).sub_const p.phi21).cos).const_mul p.C21
  have i23 := ((((hasDerivAt_id x).sub_const p.phi23).const_mul (3 : ℝ)).cos).const_mul p.C23
  have i32 := ((((hasDerivAt_id x).sub_const p.phi32).const_mul (2 : ℝ)).cos).const_mul p.C32
  have i34 := ((((hasDerivAt_id x).sub_const p.phi34).const_mul (4 : ℝ)).cos).const_mul p.C34
  have i41 := (((hasDerivAt_id x).sub_const p.phi41).cos).const_mul p.C41
  have i43 := ((((hasDerivAt_id x).sub_const p.phi43).const_mul (3 : ℝ)).cos).const_mul p.C43
  have i45 := ((((hasDerivAt_id x).sub_const p.phi45).const_mul (5 : ℝ)).cos).const_mul p.C45
  have i52 := ((((hasDerivAt_id x).sub_const p.phi52).const_mul (2 : ℝ)).cos).const_mul p.C52
  have i54 := ((((hasDerivAt_id x).sub_const p.phi54).const_mul (4 : ℝ)).cos).const_mul p.C54
  have i56 := ((((hasDerivAt_id x).sub_const p.phi56).const_mul (6 : ℝ)).cos).const_mul p.C56
  have g1 := ((hasDerivAt_const x p.C10).add i12).const_mul (1 / 2 * alpha ^ 2)
  have g2 := (i21.add i23).const_mul (1 / 3 * alpha ^ 3)
  have g3 := (((hasDerivAt_const x p.C30).add i32).add i34).const_mul (1 / 4 * alpha ^ 4)
  have g4 := ((i41.add i43).add i45).const_mul (1 / 5 * alpha ^ 5)
  have g5 := ((((hasDerivAt_const x p.C50).add i52).add i54).add i56).const_mul
    (1 / 6 * alpha ^ 6)
  have H := ((((g1.add g2).add g3).add g4).add g5).const_mul (2 * Real.pi / wavelength)
  have hD : 2 * Real.pi / wavelength *
      (1 / 2 * alpha ^ 2 *
         (0 + p.C12 * (-Real.sin (2 * (x - p.phi12)) * (2 * 1))) +
       1 / 3 * alpha ^ 3 *
         (p.C21 * (-Real.sin (x - p.phi21) * 1) +
          p.C23 * (-Real.sin (3 * (x - p.phi23)) * (3 * 1))) +
       1 / 4 * alpha ^ 4 *
         (0 + p.C32 * (-Real.sin (2 * (x - p.phi32)) * (2 * 1)) +
          p.C34 * (-Real.sin (4 * (x - p.phi34)) * (4 * 1))) +
       1 / 5 * alpha ^ 5 *
         (p.C41 * (-Real.sin (x - p.phi41) * 1) +
          p.C43 * (-Real.sin (3 * (x - p.phi43)) * (3 * 1)) +
          p.C45 * (-Real.sin (5 * (x - p.phi45)) * (5 * 1))) +
       1 / 6 * alpha ^ 6 *
         (0 + p.C52 * (-Real.sin (2 * (x - p.phi52)) * (2 * 1)) +
          p.C54 * (-Real.sin (4 * (x - p.phi54)) * (4 * 1)) +
          p.C56 * (-Real.sin (6 * (x - p.phi56)) * (6 * 1)))) =
      alpha * dchi_dphi alpha x wavelength p := by
    rw [dchi_dphi]
    ring
  exact hD ▸ H

/-- Auxiliary: the derivative of `calculate_polar_chi` in the angle
magnitude equals the source's `dchi_dk`. -/
lemma deriv_chi_alpha (alpha phi wavelength : ℝ) (p : Params) :
    deriv (fun a => calculate_polar_chi a phi wavelength p) alpha =
      dchi_dk alpha phi wavelength p := by
  have hfun : (fun a => calculate_polar_chi a phi wavelength p) =
      (fun a => calculate_polar_chi_spec a phi wavelength p) :=
    funext fun a => polar_chi_eq_spec a phi wavelength p
  rw [hfun]
  exact (hasDerivAt_chi_alpha phi wavelength p alpha).deriv

/-- Auxiliary: the derivative of `calculate_polar_chi` in the azimuth equals
`alpha` times the source's `dchi_dphi`, which is therefore the azimuthal
gradient component `(1/alpha) * (partial chi / partial phi)`, not the plain
azimuthal partial derivative. -/
lemma deriv_chi_phi (alpha phi wavelength : ℝ) (p : Params) :
    deriv (fun q => calculate_polar_chi alpha q wavelength p) phi =
      alpha * dchi_dphi alpha phi wavelength p := by
  have hfun : (fun q => calculate_polar_chi alpha q wavelength p) =
      (fun q => calculate_polar_chi_spec alpha q wavelength p) :=
    funext fun q => polar_chi_eq_spec alpha q wavelength p
  rw [hfun]
  exact (hasDerivAt_chi_phi alpha wavelength p phi).deriv

/-- C6 (amended): the spatial envelope equals
`exp(-sign(angularSpread) * (angularSpread/2)^2 * (Dk^2 + Dphi^2))` where
`Dk` is the radial derivative of the 5th-order expansion and `Dphi` is the
azimuthal derivative divided by alpha (the azimuthal gradient component) —
not the plain azimuthal partial derivative; the sign of `angularSpread` is
preserved, so for negative spread the exponent is nonnegative and every
returned value is at least 1. -/
theorem spatial_envelope_gradient_formula
    (alpha phi wavelength angular_spread : ℝ) (p : Params) :
    calculate_spatial_envelope alpha phi wavelength angular_spread p =
      Real.exp (-Real.sign angular_spread * (angular_spread / 2) ^ 2 *
        (deriv (fun a => calculate_polar_chi a phi wavelength p) alpha ^ 2 +
         (deriv (fun q => calculate_polar_chi alpha q wavelength p) phi / alpha) ^ 2)) ∧
    (angular_spread < 0 →
      1 ≤ calculate_spatial_envelope alpha phi wavelength angular_spread p) := by
  constructor
  · rw [deriv_chi_alpha, deriv_chi_phi, calculate_spatial_envelope]
    by_cases ha : alpha = 0
    · subst ha
      have h0 : dchi_dphi 0 phi wavelength p = 0 := by rw [dchi_dphi]; ring
      rw [h0]
      norm_num
    · rw [mul_comm alpha (dchi_dphi alpha phi wavelength p), mul_div_assoc,
        div_self ha, mul_one]
  · intro hneg
    rw [calculate_spatial_envelope, Real.sign_of_neg hneg]
    rw [show -(-1 : ℝ) * (angular_spread / 2) ^ 2 *
        (dchi_dk alpha phi wavelength p ^ 2 + dchi_dphi alpha phi wavelength p ^ 2) =
        (angular_spread / 2) ^ 2 *
        (dchi_dk alpha phi wavelength p ^ 2 + dchi_dphi alpha phi wavelength p ^ 2)
      by ring]
    exact Real.one_le_exp (by positivity)

/-- Witness for C6 (amended): a negative angular spread amplifies. -/
theorem spatial_envelope_gradient_formula_witness :
    ((-1 : ℝ) < 0) ∧ 1 ≤ calculate_spatial_envelope 1 0 1 (-1) Params.zero :=
  ⟨by norm_num, (spatial_envelope_gradient_formula 1 0 1 (-1) Params.zero).2 (by norm_num)⟩

/-- C6 (counterexample): at `alpha = 2`, `phi = pi/4`, wavelength 1, angular
spread 2 and a parameter store with only `C12 = 1`, the spatial envelope
does not equal the claimed formula built from the literal partial
derivatives of chi: the code divides the azimuthal derivative by alpha, the
claim does not, and at this input they differ. -/
theorem spatial_envelope_literal_derivative_counterexample :
    calculate_spatial_envelope 2 (Real.pi / 4) 1 2 pC6 ≠
      Real.exp (-Real.sign 2 * ((2 : ℝ) / 2) ^ 2 *
        (deriv (fun a => calculate_polar_chi a (Real.pi / 4) 1 pC6) 2 ^ 2 +
         deriv (fun q => calculate_polar_chi 2 q 1 pC6) (Real.pi / 4) ^ 2)) := by
  have hk : dchi_dk 2 (Real.pi / 4) 1 pC6 = 0 := by
    rw [dchi_dk]
    have e1 : (2 : ℝ) * (Real.pi / 4 - pC6.phi12) = Real.pi / 2 := by
      rw [show pC6.phi12 = 0 from rfl]; ring
    rw [e1, Real.cos_pi_div_two]
    norm_num [pC6]
  have hp : dchi_dphi 2 (Real.pi / 4) 1 pC6 = -(4 * Real.pi) := by
    rw [dchi_dphi]
    have e1 : (2 : ℝ) * (Real.pi / 4 - pC6.phi12) = Real.pi / 2 := by
      rw [show pC6.phi12 = 0 from rfl]; ring
    rw [e1, Real.sin_pi_div_two]
    norm_num [pC6]
    ring
  rw [calculate_spatial_envelope, deriv_chi_alpha, deriv_chi_phi, hk, hp,
    Real.sign_of_pos (by norm_num : (0 : ℝ) < 2)]
  intro hEq
  rw [Real.exp_eq_exp] at hEq
  nlinarith [Real.pi_pos]

end AbTem
